import Mathlib

/-!
Verification of the CUDA intrinsic typing declarations
(`numba/cuda/cudadecl.py`).

The file shallowly embeds the type algebra used by the typing rules
(`numba.core.types`), the typer functions declared in `cudadecl.py`, and the
dispatch machinery they plug into.  The typers themselves are translated
directly from `cudadecl.py`.  The collaborators that live outside that file
(`parse_shape`, the fixed-table matcher of `ConcreteTemplate`, the attribute
lookup of `AttributeTemplate`, and the resolver's named-argument contract) are
modelled from their specified contracts; each such definition carries a doc
comment saying so.
-/

/-! ## Type algebra (the relevant fragment of `numba.core.types`) -/

mutual

/-- The closed set of type values the typing rules inspect:
`Integer(width, signed)`, `IntegerLiteral` (a `Literal` that is also an
`Integer`, carrying its constant), `Float(width)`, `Boolean`, `NoneType`,
heterogeneous `Tuple`, homogeneous `UniTuple`, `Array(dtype, ndim, layout)`,
`Module` references, `Function` (typing-rule) references, and `dim3`. -/
inductive Ty where
  | integer (width : Nat) (signed : Bool)
  | intLiteral (width : Nat) (signed : Bool) (value : Int)
  | float (width : Nat)
  | boolean
  | noneType
  | tuple (elems : TyList)
  | uniTuple (elem : Ty) (count : Nat)
  | array (dtype : Ty) (ndim : Nat) (layout : String)
  | module (name : String)
  | function (rule : String)
  | dim3
  deriving DecidableEq, Repr

/-- Element lists of heterogeneous tuples (kept as a nested inductive so that
equality of types stays decidable). -/
inductive TyList where
  | nil
  | cons (head : Ty) (tail : TyList)
  deriving DecidableEq, Repr

end

def TyList.toList : TyList → List Ty
  | .nil => []
  | .cons h t => h :: t.toList

def TyList.ofList : List Ty → TyList
  | [] => .nil
  | h :: t => .cons h (TyList.ofList t)

/-- `types.int8` -/
def int8 : Ty := .integer 8 true

/-- `types.int16` -/
def int16 : Ty := .integer 16 true

/-- `types.int32` (= `types.i4`) -/
def int32 : Ty := .integer 32 true

/-- `types.int64` (= `types.i8`) -/
def int64 : Ty := .integer 64 true

/-- `types.uint8` -/
def uint8 : Ty := .integer 8 false

/-- `types.uint16` -/
def uint16 : Ty := .integer 16 false

/-- `types.uint32` -/
def uint32 : Ty := .integer 32 false

/-- `types.uint64` -/
def uint64 : Ty := .integer 64 false

/-- `types.float32` (= `types.f4`) -/
def float32 : Ty := .float 32

/-- `types.float64` (= `types.f8`) -/
def float64 : Ty := .float 64

/-- `types.boolean` (= `types.b1`) -/
def b1 : Ty := .boolean

/-- `types.intp`: the platform-sized signed integer (64-bit platform). -/
def intp : Ty := .integer 64 true

/-- `isinstance(t, types.Integer)` — `IntegerLiteral` subclasses `Integer`. -/
def Ty.isInteger : Ty → Bool
  | .integer _ _ => true
  | .intLiteral _ _ _ => true
  | _ => false

/-- `isinstance(t, types.IntegerLiteral)` -/
def Ty.isIntegerLiteral : Ty → Bool
  | .intLiteral _ _ _ => true
  | _ => false

/-- `isinstance(t, (types.Tuple, types.UniTuple))` -/
def Ty.isTupleLike : Ty → Bool
  | .tuple _ => true
  | .uniTuple _ _ => true
  | _ => false

/-- Iteration over the elements of a `Tuple`/`UniTuple` (`for s in shape`). -/
def Ty.tupleElems : Ty → List Ty
  | .tuple ts => ts.toList
  | .uniTuple t n => List.replicate n t
  | _ => []

/-- `types.unliteral`: strip a literal wrapper down to its base type. -/
def Ty.unliteral : Ty → Ty
  | .intLiteral w s _ => .integer w s
  | t => t

/-! ## Signatures -/

deriving instance DecidableEq for Except

/-- An ordered parameter-type list plus a return type
(`numba.core.typing.templates.Signature`). -/
structure Signature where
  return_type : Ty
  args : List Ty
  deriving DecidableEq, Repr

/-- `signature(return_type, *args)` -/
def signature (return_type : Ty) (args : List Ty) : Signature :=
  ⟨return_type, args⟩

/-! ## Typers translated from `cudadecl.py` -/

/-- The typer of `GridFunction.generic` (used by `Cuda_grid` and
`Cuda_gridsize`): applied to the literal value `val` of its one literal
integer argument (`ndim.literal_value`). -/
def gridFunction_typer (val : Int) : Except String Signature :=
  if val = 1 then .ok (signature int32 [int32])
  else if val = 2 ∨ val = 3 then .ok (signature (.uniTuple int32 val.toNat) [int32])
  else .error "argument can only be 1, 2, 3"

/-- Modelled from the spec: `parse_shape` (`numba.core.typing.npydecl`,
outside `src/`): "returns a definite rank only if every dimension is a
compile-time literal integer; otherwise returns nothing", with rank 1 for a
single literal integer and the sequence length for a tuple of literal
integers. -/
def parse_shape (shape : Ty) : Option Nat :=
  if shape.isIntegerLiteral then some 1
  else if shape.isTupleLike ∧ shape.tupleElems.all Ty.isIntegerLiteral then
    some shape.tupleElems.length
  else none

/-- The typer of `Cuda_array_decl.generic` (used by `Cuda_shared_array` and
`Cuda_local_array`).  `parse_dtype` is an external collaborator (outside
`src/`) and is therefore passed in as a function.  Returns the result type
(`types.Array`) or `none`. -/
def cuda_array_decl_typer (parse_dtype : Ty → Option Ty) (shape dtype : Ty) :
    Option Ty :=
  -- Only integer literals and tuples of integer literals are valid shapes
  if shape.isInteger then
    if shape.isIntegerLiteral then
      match parse_shape shape, parse_dtype dtype with
      | some ndim, some nb_dtype => some (.array nb_dtype ndim "C")
      | _, _ => none
    else none
  else if shape.isTupleLike then
    if shape.tupleElems.any (fun s => ! s.isIntegerLiteral) then none
    else
      match parse_shape shape, parse_dtype dtype with
      | some ndim, some nb_dtype => some (.array nb_dtype ndim "C")
      | _, _ => none
  else none

/-- `Cuda_selp.generic`: the fixed whitelist of eight supported types. -/
def selp_supported_types : List Ty :=
  [float64, float32, int16, uint16, int32, uint32, int64, uint64]

/-- `Cuda_selp.generic` on its three positional arguments `(test, a, b)`. -/
def cuda_selp_generic (test a b : Ty) : Option Signature :=
  if a ≠ b ∨ a ∉ selp_supported_types then none
  else some (signature a [test, a, a])

/-- `Cuda_atomic_add.generic` on its three positional arguments
`(ary, idx, val)`.  A non-array first argument is outside the typer's domain
(`ary.ndim` presupposes an array). -/
def cuda_atomic_add_generic (ary idx _val : Ty) : Option Signature :=
  match ary with
  | .array dtype ndim _ =>
    if ndim = 1 then some (signature dtype [ary, intp, dtype])
    else if ndim > 1 then some (signature dtype [ary, idx, dtype])
    else none
  | _ => none

/-- `Cuda_atomic_maxmin.generic`: the dtype whitelist. -/
def maxmin_supported_types : List Ty :=
  [float64, float32, int32, uint32, int64, uint64]

/-- `Cuda_atomic_maxmin.generic` (used by `Cuda_atomic_max` and
`Cuda_atomic_min`) on its three positional arguments `(ary, idx, val)`. -/
def cuda_atomic_maxmin_generic (ary idx _val : Ty) : Option Signature :=
  match ary with
  | .array dtype ndim _ =>
    if dtype ∉ maxmin_supported_types then none
    else if ndim = 1 then some (signature dtype [ary, intp, dtype])
    else if ndim > 1 then some (signature dtype [ary, idx, dtype])
    else none
  | _ => none

/-- `Cuda_atomic_compare_and_swap.generic` on its three positional arguments
`(ary, old, val)`. -/
def cuda_atomic_compare_and_swap_generic (ary _old _val : Ty) : Option Signature :=
  match ary with
  | .array dty ndim _ =>
    -- only support int32
    if dty = int32 ∧ ndim = 1 then some (signature dty [ary, dty, dty])
    else none
  | _ => none

/-! ## Fixed-table matching (`ConcreteTemplate` rules) -/

/-- Modelled from the spec: a fixed-table candidate matches when its
parameter-type list has the same length as the actual arguments and each
parameter type equals the corresponding argument's type under
literal-unwrapping (the `ConcreteTemplate` matcher lives in
`numba.core.typing.templates`, outside `src/`). -/
def sig_matches (c : Signature) (args : List Ty) : Bool :=
  c.args == args.map Ty.unliteral

/-- Modelled from the spec: scan the declared signatures in declaration
order; the first fully matching candidate wins; no match yields `none`
(`Unresolved`). -/
def fixed_table_resolve (table : List Signature) (args : List Ty) :
    Option Signature :=
  table.find? (fun c => sig_matches c args)

/-- `Cuda_syncthreads.cases` -/
def cuda_syncthreads_cases : List Signature := [signature .noneType []]

/-- `Cuda_syncthreads_count.cases` -/
def cuda_syncthreads_count_cases : List Signature := [signature int32 [int32]]

/-- `Cuda_syncthreads_and.cases` -/
def cuda_syncthreads_and_cases : List Signature := [signature int32 [int32]]

/-- `Cuda_syncthreads_or.cases` -/
def cuda_syncthreads_or_cases : List Signature := [signature int32 [int32]]

/-- `Cuda_threadfence_device.cases` -/
def cuda_threadfence_device_cases : List Signature := [signature .noneType []]

/-- `Cuda_threadfence_block.cases` -/
def cuda_threadfence_block_cases : List Signature := [signature .noneType []]

/-- `Cuda_threadfence_system.cases` -/
def cuda_threadfence_system_cases : List Signature := [signature .noneType []]

/-- `Cuda_syncwarp.cases` -/
def cuda_syncwarp_cases : List Signature := [signature .noneType [int32]]

/-- `types.Tuple((a, b))` -/
def pairTuple (a b : Ty) : Ty := .tuple (.cons a (.cons b .nil))

/-- `Cuda_shfl_sync_intrinsic.cases` -/
def cuda_shfl_sync_intrinsic_cases : List Signature :=
  [signature (pairTuple int32 b1) [int32, int32, int32, int32, int32],
   signature (pairTuple int64 b1) [int32, int32, int64, int32, int32],
   signature (pairTuple float32 b1) [int32, int32, float32, int32, int32],
   signature (pairTuple float64 b1) [int32, int32, float64, int32, int32]]

/-- `Cuda_vote_sync_intrinsic.cases` -/
def cuda_vote_sync_intrinsic_cases : List Signature :=
  [signature (pairTuple int32 b1) [int32, int32, b1]]

/-- `Cuda_match_any_sync.cases` -/
def cuda_match_any_sync_cases : List Signature :=
  [signature int32 [int32, int32],
   signature int32 [int32, int64],
   signature int32 [int32, float32],
   signature int32 [int32, float64]]

/-- `Cuda_match_all_sync.cases` -/
def cuda_match_all_sync_cases : List Signature :=
  [signature (pairTuple int32 b1) [int32, int32],
   signature (pairTuple int32 b1) [int32, int64],
   signature (pairTuple int32 b1) [int32, float32],
   signature (pairTuple int32 b1) [int32, float64]]

/-- `Cuda_popc.cases` -/
def cuda_popc_cases : List Signature :=
  [signature int8 [int8],
   signature int16 [int16],
   signature int32 [int32],
   signature int64 [int64],
   signature uint8 [uint8],
   signature uint16 [uint16],
   signature uint32 [uint32],
   signature uint64 [uint64]]

/-- `Cuda_fma.cases` -/
def cuda_fma_cases : List Signature :=
  [signature float32 [float32, float32, float32],
   signature float64 [float64, float64, float64]]

/-- `Cuda_brev.cases` -/
def cuda_brev_cases : List Signature :=
  [signature uint32 [uint32],
   signature uint64 [uint64]]

/-- `Cuda_clz.cases` -/
def cuda_clz_cases : List Signature :=
  [signature int8 [int8],
   signature int16 [int16],
   signature int32 [int32],
   signature int64 [int64],
   signature uint8 [uint8],
   signature uint16 [uint16],
   signature uint32 [uint32],
   signature uint64 [uint64]]

/-- `Cuda_ffs.cases` -/
def cuda_ffs_cases : List Signature :=
  [signature int8 [int8],
   signature int16 [int16],
   signature int32 [int32],
   signature int64 [int64],
   signature uint8 [uint8],
   signature uint16 [uint16],
   signature uint32 [uint32],
   signature uint64 [uint64]]

/-! ## Attribute / namespace resolution -/

/-- `Dim3_attrs`: member map of the `dim3` type. -/
def dim3_attrs : List (String × Ty) :=
  [("x", int32), ("y", int32), ("z", int32)]

/-- `CudaSharedModuleTemplate`: member map of `types.Module(cuda.shared)`. -/
def cudaSharedModuleTemplate_members : List (String × Ty) :=
  [("array", .function "Cuda_shared_array")]

/-- `CudaConstModuleTemplate`: member map of `types.Module(cuda.const)`. -/
def cudaConstModuleTemplate_members : List (String × Ty) :=
  [("array_like", .function "Cuda_const_array_like")]

/-- `CudaLocalModuleTemplate`: member map of `types.Module(cuda.local)`. -/
def cudaLocalModuleTemplate_members : List (String × Ty) :=
  [("array", .function "Cuda_local_array")]

/-- `CudaAtomicTemplate`: member map of `types.Module(cuda.atomic)`. -/
def cudaAtomicTemplate_members : List (String × Ty) :=
  [("add", .function "Cuda_atomic_add"),
   ("max", .function "Cuda_atomic_max"),
   ("min", .function "Cuda_atomic_min"),
   ("compare_and_swap", .function "Cuda_atomic_compare_and_swap")]

/-- `CudaModuleTemplate`: member map of `types.Module(cuda)`. -/
def cudaModuleTemplate_members : List (String × Ty) :=
  [("grid", .function "Cuda_grid"),
   ("gridsize", .function "Cuda_gridsize"),
   ("threadIdx", .dim3),
   ("blockIdx", .dim3),
   ("blockDim", .dim3),
   ("gridDim", .dim3),
   ("warpsize", int32),
   ("laneid", int32),
   ("shared", .module "cuda.shared"),
   ("popc", .function "Cuda_popc"),
   ("brev", .function "Cuda_brev"),
   ("clz", .function "Cuda_clz"),
   ("ffs", .function "Cuda_ffs"),
   ("fma", .function "Cuda_fma"),
   ("syncthreads", .function "Cuda_syncthreads"),
   ("syncthreads_count", .function "Cuda_syncthreads_count"),
   ("syncthreads_and", .function "Cuda_syncthreads_and"),
   ("syncthreads_or", .function "Cuda_syncthreads_or"),
   ("threadfence", .function "Cuda_threadfence_device"),
   ("threadfence_block", .function "Cuda_threadfence_block"),
   ("threadfence_system", .function "Cuda_threadfence_system"),
   ("syncwarp", .function "Cuda_syncwarp"),
   ("shfl_sync_intrinsic", .function "Cuda_shfl_sync_intrinsic"),
   ("vote_sync_intrinsic", .function "Cuda_vote_sync_intrinsic"),
   ("match_any_sync", .function "Cuda_match_any_sync"),
   ("match_all_sync", .function "Cuda_match_all_sync"),
   ("selp", .function "Cuda_selp"),
   ("atomic", .module "cuda.atomic"),
   ("const", .module "cuda.const"),
   ("local", .module "cuda.local")]

/-- Modelled from the spec: attribute resolution is case-sensitive exact
name lookup in the namespace's fixed member map; an unrecognized name yields
`none` (`NotFound`).  (The `AttributeTemplate` dispatch lives in
`numba.core.typing.templates`, outside `src/`.) -/
def resolve_attribute (members : List (String × Ty)) (name : String) :
    Option Ty :=
  members.lookup name

/-! ## The Resolver and its registry -/

/-- Outcome of a call resolution: a resolved signature, a soft `Unresolved`,
or a fatal error. -/
inductive CallOutcome where
  | resolved (sig : Signature)
  | unresolved
  | fatal (msg : String)
  deriving DecidableEq, Repr

/-- A registered typing rule, as consumed by the Resolver: positional
argument types in, a signature (`.ok (some _)`), a soft failure
(`.ok none`), or a fatal error (`.error _`). -/
def TypingRule : Type := List Ty → Except String (Option Signature)

/-- Adapter dispatching `GridFunction.generic` (the typer reads
`ndim.literal_value`, so only a literal integer argument reaches it). -/
def grid_rule : TypingRule := fun args =>
  match args with
  | [.intLiteral _ _ v] => (gridFunction_typer v).map some
  | _ => .ok none

/-- Adapter dispatching `Cuda_array_decl.generic`. -/
def array_decl_rule (parse_dtype : Ty → Option Ty) : TypingRule := fun args =>
  match args with
  | [shape, dtype] =>
    .ok ((cuda_array_decl_typer parse_dtype shape dtype).map
      (fun arr => signature arr [shape, dtype]))
  | _ => .ok none

/-- `Cuda_const_array_like.generic`: an identity typer on its argument. -/
def const_array_like_rule : TypingRule := fun args =>
  match args with
  | [ndarray] => .ok (some (signature ndarray [ndarray]))
  | _ => .ok none

/-- Adapter dispatching a `ConcreteTemplate` signature table. -/
def fixed_rule (table : List Signature) : TypingRule := fun args =>
  .ok (fixed_table_resolve table args)

/-- Adapter dispatching `Cuda_selp.generic`. -/
def selp_rule : TypingRule := fun args =>
  match args with
  | [test, a, b] => .ok (cuda_selp_generic test a b)
  | _ => .ok none

/-- Adapter dispatching `Cuda_atomic_add.generic`. -/
def atomic_add_rule : TypingRule := fun args =>
  match args with
  | [ary, idx, val] => .ok (cuda_atomic_add_generic ary idx val)
  | _ => .ok none

/-- Adapter dispatching `Cuda_atomic_maxmin.generic`. -/
def atomic_maxmin_rule : TypingRule := fun args =>
  match args with
  | [ary, idx, val] => .ok (cuda_atomic_maxmin_generic ary idx val)
  | _ => .ok none

/-- Adapter dispatching `Cuda_atomic_compare_and_swap.generic`. -/
def atomic_compare_and_swap_rule : TypingRule := fun args =>
  match args with
  | [ary, old, val] => .ok (cuda_atomic_compare_and_swap_generic ary old val)
  | _ => .ok none

/-- The registry built by the `@register` declarations of `cudadecl.py`:
one typing rule per intrinsic identity.  `parse_dtype` is the external
dtype-parsing collaborator needed by the array-allocation rules. -/
def cuda_registry (parse_dtype : Ty → Option Ty) :
    String → Option TypingRule
  | "cuda.grid" => some grid_rule
  | "cuda.gridsize" => some grid_rule
  | "cuda.shared.array" => some (array_decl_rule parse_dtype)
  | "cuda.local.array" => some (array_decl_rule parse_dtype)
  | "cuda.const.array_like" => some const_array_like_rule
  | "cuda.syncthreads" => some (fixed_rule cuda_syncthreads_cases)
  | "cuda.syncthreads_count" => some (fixed_rule cuda_syncthreads_count_cases)
  | "cuda.syncthreads_and" => some (fixed_rule cuda_syncthreads_and_cases)
  | "cuda.syncthreads_or" => some (fixed_rule cuda_syncthreads_or_cases)
  | "cuda.threadfence" => some (fixed_rule cuda_threadfence_device_cases)
  | "cuda.threadfence_block" => some (fixed_rule cuda_threadfence_block_cases)
  | "cuda.threadfence_system" => some (fixed_rule cuda_threadfence_system_cases)
  | "cuda.syncwarp" => some (fixed_rule cuda_syncwarp_cases)
  | "cuda.shfl_sync_intrinsic" => some (fixed_rule cuda_shfl_sync_intrinsic_cases)
  | "cuda.vote_sync_intrinsic" => some (fixed_rule cuda_vote_sync_intrinsic_cases)
  | "cuda.match_any_sync" => some (fixed_rule cuda_match_any_sync_cases)
  | "cuda.match_all_sync" => some (fixed_rule cuda_match_all_sync_cases)
  | "cuda.popc" => some (fixed_rule cuda_popc_cases)
  | "cuda.fma" => some (fixed_rule cuda_fma_cases)
  | "cuda.brev" => some (fixed_rule cuda_brev_cases)
  | "cuda.clz" => some (fixed_rule cuda_clz_cases)
  | "cuda.ffs" => some (fixed_rule cuda_ffs_cases)
  | "cuda.selp" => some selp_rule
  | "cuda.atomic.add" => some atomic_add_rule
  | "cuda.atomic.max" => some atomic_maxmin_rule
  | "cuda.atomic.min" => some atomic_maxmin_rule
  | "cuda.atomic.compare_and_swap" => some atomic_compare_and_swap_rule
  | _ => none

/-- Modelled from the spec: before dispatching a call request the Resolver
asserts the named-arguments map is empty; a violation is a fatal
malformed-request error, never a soft `Unresolved` (the dispatch machinery
lives in `numba.core.typing`, outside `src/`). -/
def resolve_call (registry : String → Option TypingRule) (identity : String)
    (args : List Ty) (kws : List (String × Ty)) : CallOutcome :=
  if kws ≠ [] then .fatal "malformed request: named arguments are not permitted"
  else
    match registry identity with
    | none => .unresolved
    | some rule =>
      match rule args with
      | .error msg => .fatal msg
      | .ok none => .unresolved
      | .ok (some s) => .resolved s

/-! ## Helper lemmas -/

theorem lookup_eq_none_of_forall (members : List (String × Ty)) (name : String)
    (h : ∀ p ∈ members, p.1 ≠ name) : members.lookup name = none := by
  induction members with
  | nil => rfl
  | cons p rest ih =>
    obtain ⟨k, v⟩ := p
    have hp : k ≠ name := h (k, v) (List.mem_cons_self _ _)
    have hbeq : (name == k) = false := by
      simp only [beq_eq_false_iff_ne, ne_eq]
      exact fun hh => hp hh.symm
    simp only [List.lookup, hbeq]
    exact ih fun q hq => h q (List.mem_cons_of_mem _ hq)

theorem fixed_table_resolve_single (table : List Signature) (t : Ty) :
    fixed_table_resolve table [t]
      = table.find? (fun c => c.args == [t.unliteral]) := rfl

/-! ## Claim theorems -/

/-- C1 counterexample: on a successful compare-and-swap resolution the claim
says all three parameter types equal `Integer(32,signed)`, but the resolved
signature's first parameter type is the array type itself
(`signature(dty, ary, dty, dty)` in the source), which differs from the
dtype. -/
theorem C1_counterexample :
    cuda_atomic_compare_and_swap_generic (Ty.array int32 1 "C") int32 int32
      = some (signature int32 [Ty.array int32 1 "C", int32, int32]) ∧
    Ty.array int32 1 "C" ≠ int32 := by
  refine ⟨by decide, by decide⟩

/-- C1 (amended): compare-and-swap resolution succeeds exactly when the
array's dtype is `Integer(32,signed)` and its ndim is 1; on success the
return type and the last two parameter types equal that dtype, while the
first parameter type is the array type itself. -/
theorem C1_compare_and_swap_typer (dtype : Ty) (ndim : Nat) (layout : String)
    (old val : Ty) :
    ((cuda_atomic_compare_and_swap_generic (Ty.array dtype ndim layout) old
        val).isSome ↔ dtype = int32 ∧ ndim = 1) ∧
    (dtype = int32 → ndim = 1 →
      cuda_atomic_compare_and_swap_generic (Ty.array dtype ndim layout) old val
        = some (signature int32 [Ty.array int32 1 layout, int32, int32])) := by
  constructor
  · by_cases h : dtype = int32 ∧ ndim = 1 <;>
      simp [cuda_atomic_compare_and_swap_generic, h]
  · rintro rfl rfl
    simp [cuda_atomic_compare_and_swap_generic]

/-- Witness for C1: the amended theorem applied at a 1-D `int32` array. -/
theorem C1_compare_and_swap_typer_witness :
    cuda_atomic_compare_and_swap_generic (Ty.array int32 1 "C") int32 int32
      = some (signature int32 [Ty.array int32 1 "C", int32, int32]) :=
  (C1_compare_and_swap_typer int32 1 "C" int32 int32).2 rfl rfl

/-- C2: for every intrinsic identity and every ordered argument-type list,
`resolve_call` with a non-empty named-arguments map yields the
malformed-request fatal error, never `Unresolved` — including for the
grid/gridsize and array-allocation intrinsics. -/
theorem C2_resolve_call_rejects_named_args (parse_dtype : Ty → Option Ty)
    (identity : String) (args : List Ty) (kws : List (String × Ty))
    (h : kws ≠ []) :
    resolve_call (cuda_registry parse_dtype) identity args kws
      = .fatal "malformed request: named arguments are not permitted" := by
  simp [resolve_call, h]

/-- Witness for C2: a named argument passed to the grid intrinsic. -/
theorem C2_resolve_call_rejects_named_args_witness :
    resolve_call (cuda_registry fun _ => none) "cuda.grid" [] [("ndim", int32)]
      = .fatal "malformed request: named arguments are not permitted" :=
  C2_resolve_call_rejects_named_args (fun _ => none) "cuda.grid" [] _ (by simp)

/-- C3 counterexample: at literal value 4 the dimension-count typer raises
the message "argument can only be 1, 2, 3", not "argument can only be 1, 2,
or 3" as the claim quotes it. -/
theorem C3_counterexample :
    gridFunction_typer 4 ≠ Except.error "argument can only be 1, 2, or 3" := by
  decide

/-- C3 (amended): the dimension-count typer maps literal 1 to
`Integer(32,signed)`, literals 2 and 3 to a `UniTuple` of that many copies of
`Integer(32,signed)`, and raises the fatal error "argument can only be 1, 2,
3" (without "or") on every other literal value, never yielding
`Unresolved`. -/
theorem C3_grid_typer (val : Int) :
    (val = 1 → gridFunction_typer val = .ok (signature int32 [int32])) ∧
    (val = 2 ∨ val = 3 →
      gridFunction_typer val
        = .ok (signature (.uniTuple int32 val.toNat) [int32])) ∧
    (val ≠ 1 → val ≠ 2 → val ≠ 3 →
      gridFunction_typer val = .error "argument can only be 1, 2, 3") := by
  refine ⟨?_, ?_, ?_⟩
  · rintro rfl; decide
  · rintro (rfl | rfl) <;> decide
  · intro h1 h2 h3
    simp [gridFunction_typer, h1, h2, h3]

/-- Witness for C3: the amended theorem applied at literal 4. -/
theorem C3_grid_typer_witness :
    gridFunction_typer 4 = Except.error "argument can only be 1, 2, 3" :=
  (C3_grid_typer 4).2.2 (by decide) (by decide) (by decide)

/-- C5: atomic-add resolution on a 1-D array uses the platform-sized signed
integer as index parameter type; on an array of higher rank it keeps the
supplied index type unchanged; on a 0-D array it is `Unresolved`; the return
type is always the array's dtype. -/
theorem C5_atomic_add_typer (dtype : Ty) (ndim : Nat) (layout : String)
    (idx val : Ty) :
    (ndim = 1 → cuda_atomic_add_generic (Ty.array dtype ndim layout) idx val
        = some (signature dtype [Ty.array dtype ndim layout, intp, dtype])) ∧
    (ndim > 1 → cuda_atomic_add_generic (Ty.array dtype ndim layout) idx val
        = some (signature dtype [Ty.array dtype ndim layout, idx, dtype])) ∧
    (ndim = 0 →
      cuda_atomic_add_generic (Ty.array dtype ndim layout) idx val = none) := by
  refine ⟨?_, ?_, ?_⟩
  · rintro rfl; simp [cuda_atomic_add_generic]
  · intro h
    have h1 : ndim ≠ 1 := by omega
    simp [cuda_atomic_add_generic, h1, h]
  · rintro rfl; simp [cuda_atomic_add_generic]

/-- Witness for C5: a 1-D `int32` array. -/
theorem C5_atomic_add_typer_witness :
    cuda_atomic_add_generic (Ty.array int32 1 "C") intp int32
      = some (signature int32 [Ty.array int32 1 "C", intp, int32]) :=
  (C5_atomic_add_typer int32 1 "C" intp int32).1 rfl

/-- C6: atomic max/min resolution yields the soft `Unresolved` whenever the
array's dtype is outside the whitelist {float64, float32, int32, uint32,
int64, uint64}; inside the whitelist it follows exactly the atomic-add shape
rule. -/
theorem C6_atomic_maxmin_typer (dtype : Ty) (ndim : Nat) (layout : String)
    (idx val : Ty) :
    (dtype ∉ maxmin_supported_types →
      cuda_atomic_maxmin_generic (Ty.array dtype ndim layout) idx val = none) ∧
    (dtype ∈ maxmin_supported_types →
      cuda_atomic_maxmin_generic (Ty.array dtype ndim layout) idx val
        = cuda_atomic_add_generic (Ty.array dtype ndim layout) idx val) := by
  constructor
  · intro h; simp [cuda_atomic_maxmin_generic, h]
  · intro h; simp [cuda_atomic_maxmin_generic, cuda_atomic_add_generic, h]

/-- Witness for C6: `Integer(8,signed)` is outside the whitelist and resolves
to `Unresolved`. -/
theorem C6_atomic_maxmin_typer_witness :
    cuda_atomic_maxmin_generic (Ty.array (Ty.integer 8 true) 1 "C") intp
      (Ty.integer 8 true) = none :=
  (C6_atomic_maxmin_typer (Ty.integer 8 true) 1 "C" intp
    (Ty.integer 8 true)).1 (by decide)

/-- C7: branch-select resolution succeeds exactly when both branch types are
equal and belong to the eight-type whitelist; on success the return type is
the branch type and the parameter types are `(condition, a, a)`. -/
theorem C7_selp_typer (test a b : Ty) :
    ((cuda_selp_generic test a b).isSome ↔
      a = b ∧ a ∈ selp_supported_types) ∧
    (a = b → a ∈ selp_supported_types →
      cuda_selp_generic test a b = some (signature a [test, a, a])) := by
  constructor
  · constructor
    · intro hs
      by_contra hc
      rw [not_and_or] at hc
      have hcond : a ≠ b ∨ a ∉ selp_supported_types := hc
      simp [cuda_selp_generic, hcond] at hs
    · rintro ⟨rfl, hmem⟩
      simp [cuda_selp_generic, hmem]
  · rintro rfl hmem
    simp [cuda_selp_generic, hmem]

/-- Witness for C7: both branches `Float(64)`. -/
theorem C7_selp_typer_witness :
    cuda_selp_generic b1 float64 float64
      = some (signature float64 [b1, float64, float64]) :=
  (C7_selp_typer b1 float64 float64).2 rfl (by decide)

/-- C10: unlike atomic max/min, the atomic-add typer imposes no dtype
whitelist — for every array of rank at least 1 and any element dtype
whatsoever, resolution succeeds with return type equal to that dtype. -/
theorem C10_atomic_add_any_dtype (dtype : Ty) (ndim : Nat) (layout : String)
    (idx val : Ty) (h : 1 ≤ ndim) :
    ∃ s, cuda_atomic_add_generic (Ty.array dtype ndim layout) idx val = some s ∧
      s.return_type = dtype := by
  rcases Nat.lt_or_ge 1 ndim with hgt | hle
  · refine ⟨signature dtype [Ty.array dtype ndim layout, idx, dtype], ?_, rfl⟩
    have h1 : ndim ≠ 1 := by omega
    simp [cuda_atomic_add_generic, h1, hgt]
  · have h1 : ndim = 1 := by omega
    subst h1
    exact ⟨signature dtype [Ty.array dtype 1 layout, intp, dtype],
      by simp [cuda_atomic_add_generic], rfl⟩

theorem array_decl_bad_shape (pd : Ty → Option Ty) (shape dtype : Ty)
    (h : ¬ (shape.isIntegerLiteral = true ∨
        (shape.isTupleLike = true ∧
          shape.tupleElems.all Ty.isIntegerLiteral = true))) :
    cuda_array_decl_typer pd shape dtype = none := by
  push_neg at h
  obtain ⟨h1, h2⟩ := h
  by_cases hi : shape.isInteger
  · simp [cuda_array_decl_typer, hi, h1]
  · by_cases htl : shape.isTupleLike
    · have hall := h2 htl
      have hany : shape.tupleElems.any (fun s => ! s.isIntegerLiteral) = true := by
        rw [List.any_eq_true]
        simp only [ne_eq, List.all_eq_true] at hall
        push_neg at hall
        obtain ⟨s, hs, hns⟩ := hall
        exact ⟨s, hs, by simp [hns]⟩
      simp [cuda_array_decl_typer, hi, htl, hany]
    · simp [cuda_array_decl_typer, hi, htl]

theorem array_decl_bad_dtype (pd : Ty → Option Ty) (shape dtype : Ty)
    (h : pd dtype = none) : cuda_array_decl_typer pd shape dtype = none := by
  by_cases hi : shape.isInteger
  · by_cases hl : shape.isIntegerLiteral
    · rcases hps : parse_shape shape with _ | n <;>
        simp [cuda_array_decl_typer, hi, hl, hps, h]
    · simp [cuda_array_decl_typer, hi, hl]
  · by_cases htl : shape.isTupleLike
    · by_cases hany : shape.tupleElems.any (fun s => ! s.isIntegerLiteral)
      · simp [cuda_array_decl_typer, hi, htl, hany]
      · rcases hps : parse_shape shape with _ | n <;>
          simp [cuda_array_decl_typer, hi, htl, hany, hps, h]
    · simp [cuda_array_decl_typer, hi, htl]

theorem array_decl_intLiteral_case (pd : Ty → Option Ty) (dtype : Ty) (w : Nat)
    (s : Bool) (v : Int) (nb : Ty) (hpd : pd dtype = some nb) :
    cuda_array_decl_typer pd (.intLiteral w s v) dtype
      = some (.array nb 1 "C") := by
  simp [cuda_array_decl_typer, parse_shape, Ty.isInteger, Ty.isIntegerLiteral,
    hpd]

theorem array_decl_tuple_case (pd : Ty → Option Ty) (shape dtype nb : Ty)
    (ht : shape.isTupleLike = true)
    (hall : shape.tupleElems.all Ty.isIntegerLiteral = true)
    (hpd : pd dtype = some nb) :
    cuda_array_decl_typer pd shape dtype
      = some (.array nb shape.tupleElems.length "C") := by
  have hInt : shape.isInteger = false := by
    cases shape <;> simp_all [Ty.isTupleLike, Ty.isInteger]
  have hLit : shape.isIntegerLiteral = false := by
    cases shape <;> simp_all [Ty.isTupleLike, Ty.isIntegerLiteral]
  have hany : shape.tupleElems.any (fun s => ! s.isIntegerLiteral) = false := by
    rw [List.all_eq_true] at hall
    rw [List.any_eq_false]
    intro s hs
    simp [hall s hs]
  simp [cuda_array_decl_typer, parse_shape, hInt, hLit, ht, hall, hany, hpd]

/-- C4: array-allocation resolution is `Unresolved` unless the shape is a
single literal integer or a tuple of literal integers, and `Unresolved` when
the external dtype parse fails; otherwise the result is
`Array(parsed dtype, ndim, layout=contiguous)` with ndim 1 for a single
literal and the sequence length for a tuple. -/
theorem C4_array_decl_typer (pd : Ty → Option Ty) (shape dtype : Ty) :
    (¬ (shape.isIntegerLiteral = true ∨
        (shape.isTupleLike = true ∧
          shape.tupleElems.all Ty.isIntegerLiteral = true)) →
      cuda_array_decl_typer pd shape dtype = none) ∧
    (pd dtype = none → cuda_array_decl_typer pd shape dtype = none) ∧
    (∀ w s v nb, shape = .intLiteral w s v → pd dtype = some nb →
      cuda_array_decl_typer pd shape dtype = some (.array nb 1 "C")) ∧
    (∀ nb, shape.isTupleLike = true →
      shape.tupleElems.all Ty.isIntegerLiteral = true → pd dtype = some nb →
      cuda_array_decl_typer pd shape dtype
        = some (.array nb shape.tupleElems.length "C")) := by
  refine ⟨array_decl_bad_shape pd shape dtype,
    array_decl_bad_dtype pd shape dtype, ?_, ?_⟩
  · rintro w s v nb rfl hpd
    exact array_decl_intLiteral_case pd dtype w s v nb hpd
  · intro nb ht hall hpd
    exact array_decl_tuple_case pd shape dtype nb ht hall hpd

/-- Witness for C4: literal shape 10 with dtype parsed as `Float(32)` gives a
1-D contiguous `Float(32)` array. -/
theorem C4_array_decl_typer_witness :
    cuda_array_decl_typer (fun _ => some float32) (Ty.intLiteral 64 true 10)
      float32 = some (Ty.array float32 1 "C") :=
  (C4_array_decl_typer (fun _ => some float32) (Ty.intLiteral 64 true 10)
    float32).2.2.1 64 true 10 float32 rfl rfl

/-- The eight parameter types declared by the population-count table. -/
def popc_param_types : List Ty :=
  [int8, int16, int32, int64, uint8, uint16, uint32, uint64]

theorem find?_popc_none (u : Ty) (h1 : u ≠ int8) (h2 : u ≠ int16)
    (h3 : u ≠ int32) (h4 : u ≠ int64) (h5 : u ≠ uint8) (h6 : u ≠ uint16)
    (h7 : u ≠ uint32) (h8 : u ≠ uint64) :
    cuda_popc_cases.find? (fun c => c.args == [u]) = none := by
  have e1 : (([int8] : List Ty) == [u]) = false := by
    simpa using fun hh => h1 hh.symm
  have e2 : (([int16] : List Ty) == [u]) = false := by
    simpa using fun hh => h2 hh.symm
  have e3 : (([int32] : List Ty) == [u]) = false := by
    simpa using fun hh => h3 hh.symm
  have e4 : (([int64] : List Ty) == [u]) = false := by
    simpa using fun hh => h4 hh.symm
  have e5 : (([uint8] : List Ty) == [u]) = false := by
    simpa using fun hh => h5 hh.symm
  have e6 : (([uint16] : List Ty) == [u]) = false := by
    simpa using fun hh => h6 hh.symm
  have e7 : (([uint32] : List Ty) == [u]) = false := by
    simpa using fun hh => h7 hh.symm
  have e8 : (([uint64] : List Ty) == [u]) = false := by
    simpa using fun hh => h8 hh.symm
  simp [cuda_popc_cases, signature, List.find?, e1, e2, e3, e4, e5, e6, e7, e8]

/-- C8: the population-count fixed table resolves any single argument whose
literal-unwrapped type is one of its eight declared integer parameter types
to exactly that declared signature (return type equal to the argument's base
type), and yields `Unresolved` on every other argument type without
raising. -/
theorem C8_popc_fixed_table (t : Ty) :
    (t.unliteral ∈ popc_param_types →
      fixed_table_resolve cuda_popc_cases [t]
        = some (signature t.unliteral [t.unliteral])) ∧
    (t.unliteral ∉ popc_param_types →
      fixed_table_resolve cuda_popc_cases [t] = none) := by
  constructor
  · intro h
    rw [fixed_table_resolve_single]
    simp only [popc_param_types, List.mem_cons, List.not_mem_nil,
      or_false] at h
    rcases h with h | h | h | h | h | h | h | h <;> simp only [h] <;> decide
  · intro h
    rw [fixed_table_resolve_single]
    simp only [popc_param_types, List.mem_cons, List.not_mem_nil,
      or_false] at h
    push_neg at h
    exact find?_popc_none t.unliteral h.1 h.2.1 h.2.2.1 h.2.2.2.1 h.2.2.2.2.1
      h.2.2.2.2.2.1 h.2.2.2.2.2.2.1 h.2.2.2.2.2.2.2

/-- Witness for C8: a literal wrapping `Integer(8,unsigned)` resolves to the
declared `uint8` signature, while `Float(32)` is `Unresolved`. -/
theorem C8_popc_fixed_table_witness :
    fixed_table_resolve cuda_popc_cases [Ty.intLiteral 8 false 5]
      = some (signature uint8 [uint8]) ∧
    fixed_table_resolve cuda_popc_cases [float32] = none :=
  ⟨(C8_popc_fixed_table (Ty.intLiteral 8 false 5)).1 (by decide),
   (C8_popc_fixed_table float32).2 (by decide)⟩

/-- C9: attribute lookup on the registered namespaces returns exactly the
mapped type for every known member (`atomic` on the top-level namespace gives
the nested atomic namespace, `compare_and_swap` on the atomic namespace gives
the compare-and-swap rule reference), returns `NotFound` for every name
outside the member map, and is case-sensitive. -/
theorem C9_attribute_resolution (name : String) :
    resolve_attribute cudaModuleTemplate_members "atomic"
      = some (.module "cuda.atomic") ∧
    resolve_attribute cudaAtomicTemplate_members "compare_and_swap"
      = some (.function "Cuda_atomic_compare_and_swap") ∧
    ((∀ p ∈ cudaModuleTemplate_members, p.1 ≠ name) →
      resolve_attribute cudaModuleTemplate_members name = none) ∧
    ((∀ p ∈ cudaAtomicTemplate_members, p.1 ≠ name) →
      resolve_attribute cudaAtomicTemplate_members name = none) ∧
    resolve_attribute cudaAtomicTemplate_members "Add" = none ∧
    (∀ p ∈ cudaAtomicTemplate_members,
      resolve_attribute cudaAtomicTemplate_members p.1 = some p.2) ∧
    (∀ p ∈ cudaModuleTemplate_members,
      resolve_attribute cudaModuleTemplate_members p.1 = some p.2) :=
  ⟨by decide, by decide, lookup_eq_none_of_forall _ _,
   lookup_eq_none_of_forall _ _, by decide, by decide, by decide⟩

/-- Witness for C9: a case variant of a known member name is `NotFound`. -/
theorem C9_attribute_resolution_witness :
    resolve_attribute cudaModuleTemplate_members "warpSize" = none :=
  (C9_attribute_resolution "warpSize").2.2.1 (by decide)

/-- Witness for C10: a 1-D array of `Integer(8,signed)`, a width the max/min
rule rejects, still resolves with return type `Integer(8,signed)`. -/
theorem C10_atomic_add_any_dtype_witness :
    ∃ s, cuda_atomic_add_generic (Ty.array (Ty.integer 8 true) 1 "C") intp
        (Ty.integer 8 true) = some s ∧ s.return_type = Ty.integer 8 true :=
  C10_atomic_add_any_dtype (Ty.integer 8 true) 1 "C" intp (Ty.integer 8 true)
    (by decide)
